import Mathlib

set_option maxRecDepth 100000

/-!
Shallow embedding of the two-stage inference-orchestration pipeline
(vision describe / reasoning analyze / warmup monitor / cost model) of the
`deepseek-test` repository, translated from `src/analyzer.rs`,
`src/vision.rs`, `src/models.rs` and `src/main.rs`.

Conventions of the embedding:
- Rust `f64` monetary and timing arithmetic is modelled over `ℚ` (exact
  real-number semantics of the same expressions); `u64` counters are `ℕ`
  (Rust `saturating_sub` is `Nat.sub`, which saturates at 0).
- Network calls are oracles: each call site consumes one outcome drawn from
  a "world" record, and every function returns the list of upstream calls
  it performed next to its `Except` result, so that claims about which and
  how many calls happen are statable.
- `serde_json::Value` is the inductive `Json` below; `serde_json::from_str`
  is the fuel-based `Json.parse` (covering the JSON fragment these
  responses use: no exponent literals and no `\u` escapes, which none of
  the exercised inputs contain); `Value`'s `Display` is `Json.render`.
-/

namespace DeepseekTest

/-- Model of `serde_json::Value`. -/
inductive Json where
  | null : Json
  | bool (b : Bool) : Json
  | num (q : ℚ) : Json
  | str (s : String) : Json
  | arr (elems : List Json) : Json
  | obj (fields : List (String × Json)) : Json

/-- `Value::as_str`: `Some` exactly on JSON strings. -/
def Json.asStr : Json → Option String
  | .str s => some s
  | _ => none

/-- `Value::get(key)`: field lookup, `None` on non-objects. -/
def Json.get (j : Json) (key : String) : Option Json :=
  match j with
  | .obj fs => (fs.find? (fun kv => kv.1 == key)).map (fun kv => kv.2)
  | _ => none

/-- Escaping of one character inside a rendered JSON string, as
`serde_json` does for the characters these payloads contain. -/
def escapeChar (c : Char) : String :=
  if c = '"' then "\\\""
  else if c = '\\' then "\\\\"
  else if c = '\n' then "\\n"
  else if c = '\t' then "\\t"
  else if c = '\r' then "\\r"
  else String.singleton c

/-- Rendered JSON string literal. -/
def renderString (s : String) : String :=
  "\"" ++ String.join (s.toList.map escapeChar) ++ "\""

/-- Rendered JSON number. Integral values (the only numbers the upstream
payloads of this program carry) render exactly as `serde_json` prints
them. -/
def renderNum (q : ℚ) : String :=
  if q.den = 1 then toString q.num else toString q

mutual

/-- `serde_json::Value`'s `Display`/`to_string()` (compact form). -/
def renderJson : Json → String
  | .null => "null"
  | .bool b => if b then "true" else "false"
  | .num q => renderNum q
  | .str s => renderString s
  | .arr xs => "[" ++ renderList xs ++ "]"
  | .obj fs => "\x7b" ++ renderFields fs ++ "\x7d"

def renderList : List Json → String
  | [] => ""
  | [x] => renderJson x
  | x :: y :: xs => renderJson x ++ "," ++ renderList (y :: xs)

def renderFields : List (String × Json) → String
  | [] => ""
  | [kv] => renderString kv.1 ++ ":" ++ renderJson kv.2
  | kv :: kv2 :: fs => renderString kv.1 ++ ":" ++ renderJson kv.2 ++ "," ++ renderFields (kv2 :: fs)

end

/-- JSON whitespace. -/
def isWs (c : Char) : Bool :=
  c = ' ' || c = '\n' || c = '\t' || c = '\r'

def skipWs (cs : List Char) : List Char := cs.dropWhile isWs

/-- JSON escape sequences (the ones the exercised inputs use). -/
def unescape (c : Char) : Option Char :=
  if c = '"' then some '"'
  else if c = '\\' then some '\\'
  else if c = '/' then some '/'
  else if c = 'n' then some '\n'
  else if c = 't' then some '\t'
  else if c = 'r' then some '\r'
  else none

/-- Body of a JSON string literal after the opening quote; returns the
decoded characters and the remainder after the closing quote. -/
def parseStringChars : List Char → Option (List Char × List Char)
  | [] => none
  | c :: rest =>
    if c = '"' then some ([], rest)
    else if c = '\\' then
      match rest with
      | [] => none
      | e :: rest2 => do
        let u ← unescape e
        let (s, r) ← parseStringChars rest2
        pure (u :: s, r)
    else do
      let (s, r) ← parseStringChars rest
      pure (c :: s, r)

def digitVal (c : Char) : Option ℕ :=
  if '0' ≤ c ∧ c ≤ '9' then some (c.toNat - '0'.toNat) else none

/-- Consume leading digits, accumulating their value. -/
def parseDigits : List Char → ℕ → (ℕ × List Char)
  | [], acc => (acc, [])
  | c :: rest, acc =>
    match digitVal c with
    | some d => parseDigits rest (acc * 10 + d)
    | none => (acc, c :: rest)

/-- JSON number (integer or decimal fraction). -/
def parseNumber (cs : List Char) : Option (ℚ × List Char) :=
  let (neg, cs1) :=
    match cs with
    | '-' :: rest => (true, rest)
    | _ => (false, cs)
  match cs1 with
  | [] => none
  | c :: _ =>
    if (digitVal c).isSome then
      let (ip, cs2) := parseDigits cs1 0
      match cs2 with
      | '.' :: cs3 =>
        match cs3 with
        | [] => none
        | d :: _ =>
          if (digitVal d).isSome then
            let n0 := cs3.length
            let (fp, cs4) := parseDigits cs3 0
            let q : ℚ := (ip : ℚ) + (fp : ℚ) / ((10 : ℚ) ^ (n0 - cs4.length))
            some ((if neg then -q else q), cs4)
          else none
      | _ => some ((if neg then -(ip : ℚ) else (ip : ℚ)), cs2)
    else none

mutual

/-- One JSON value (fuel-based recursive descent). -/
def parseValue : ℕ → List Char → Option (Json × List Char)
  | 0, _ => none
  | fuel + 1, cs =>
    match skipWs cs with
    | [] => none
    | c :: rest =>
      if c = '"' then do
        let (s, r) ← parseStringChars rest
        pure (Json.str (String.mk s), r)
      else if c = '\x7b' then parseObjBody fuel rest
      else if c = '[' then parseArrBody fuel rest
      else if c = 't' then
        match rest with
        | 'r' :: 'u' :: 'e' :: r => some (Json.bool true, r)
        | _ => none
      else if c = 'f' then
        match rest with
        | 'a' :: 'l' :: 's' :: 'e' :: r => some (Json.bool false, r)
        | _ => none
      else if c = 'n' then
        match rest with
        | 'u' :: 'l' :: 'l' :: r => some (Json.null, r)
        | _ => none
      else do
        let (q, r) ← parseNumber (c :: rest)
        pure (Json.num q, r)

/-- Array, after the opening bracket. -/
def parseArrBody : ℕ → List Char → Option (Json × List Char)
  | 0, _ => none
  | fuel + 1, cs =>
    match skipWs cs with
    | ']' :: r => some (Json.arr [], r)
    | _ => do
      let (x, r1) ← parseValue fuel cs
      parseArrRest fuel [x] r1

def parseArrRest : ℕ → List Json → List Char → Option (Json × List Char)
  | 0, _, _ => none
  | fuel + 1, acc, cs =>
    match skipWs cs with
    | ',' :: r => do
      let (x, r1) ← parseValue fuel r
      parseArrRest fuel (acc ++ [x]) r1
    | ']' :: r => some (Json.arr acc, r)
    | _ => none

/-- Object, after the opening brace. -/
def parseObjBody : ℕ → List Char → Option (Json × List Char)
  | 0, _ => none
  | fuel + 1, cs =>
    match skipWs cs with
    | '\x7d' :: r => some (Json.obj [], r)
    | _ => do
      let (kv, r1) ← parseMember fuel cs
      parseObjRest fuel [kv] r1

def parseObjRest : ℕ → List (String × Json) → List Char → Option (Json × List Char)
  | 0, _, _ => none
  | fuel + 1, acc, cs =>
    match skipWs cs with
    | ',' :: r => do
      let (kv, r1) ← parseMember fuel r
      parseObjRest fuel (acc ++ [kv]) r1
    | '\x7d' :: r => some (Json.obj acc, r)
    | _ => none

/-- One `"key": value` member. -/
def parseMember : ℕ → List Char → Option ((String × Json) × List Char)
  | 0, _ => none
  | fuel + 1, cs =>
    match skipWs cs with
    | '"' :: rest => do
      let (k, r1) ← parseStringChars rest
      match skipWs r1 with
      | ':' :: r2 => do
        let (v, r3) ← parseValue fuel r2
        pure ((String.mk k, v), r3)
      | _ => none
    | _ => none

end

/-- `serde_json::from_str::<Value>`: a full parse of the whole input
(trailing content other than whitespace rejects). -/
def Json.parse (s : String) : Option Json :=
  match parseValue (2 * s.length + 2) s.toList with
  | some (v, r) => if skipWs r = [] then some v else none
  | none => none

/-! ### Upstream call accounting

Every network call a request (or the warmup task) performs is recorded, so
that "zero upstream calls" claims are statable. -/

/-- The kinds of upstream network calls the program makes. -/
inductive Call where
  | upload : Call
  | visionSubmit : Call
  | visionPoll : Call
  | reason : Call
  | warmSubmit : Call
  | warmPoll : Call
  deriving DecidableEq

/-! ### Vision stage (`src/vision.rs`) -/

/-- `models.rs` `ReplicateMetrics`. -/
structure ReplicateMetrics where
  predict_time : Option ℚ

/-- `models.rs` `ReplicateResponse`. -/
structure ReplicateResponse where
  id : String
  status : String
  output : Option Json
  error : Option String
  metrics : Option ReplicateMetrics

/-- `vision.rs` `VisionResult`. -/
structure VisionResult where
  description : String
  predict_seconds : ℚ
  deriving DecidableEq

/-- The terminal handle's reported predict time, defaulting to 0 when the
metrics block or the `predict_time` field is absent
(`prediction.metrics.as_ref().and_then(|m| m.predict_time).unwrap_or(0.0)`). -/
def predictSecondsOf (prediction : ReplicateResponse) : ℚ :=
  ((prediction.metrics.bind fun m => m.predict_time).getD 0)

/-- `vision.rs` `extract_result`: normalize the terminal prediction's
output payload into a description string. -/
def extract_result (prediction : ReplicateResponse) : Except String VisionResult :=
  match prediction.output with
  | some (Json.str s) =>
      Except.ok { description := s, predict_seconds := predictSecondsOf prediction }
  | some (Json.arr a) =>
      let text := String.join (a.filterMap Json.asStr)
      if text = "" then Except.error "Replicate returned empty output array"
      else Except.ok { description := text, predict_seconds := predictSecondsOf prediction }
  | some other =>
      Except.ok { description := renderJson other, predict_seconds := predictSecondsOf prediction }
  | none => Except.error "Replicate returned no output"

/-- Outcome of the file-staging upload call (`vision.rs` `upload_image`). -/
inductive UploadOutcome where
  | netErr (e : String)
  | readErr (e : String)
  | httpErr (status : String) (body : String)
  | parseErr (e : String) (body : String)
  | ok (url : String)

/-- Outcome of the initial prediction-submit call of `describe_chart`:
either a transport/read/HTTP/parse failure or the parsed
`ReplicateResponse`. -/
inductive SubmitOutcome where
  | netErr (e : String)
  | readErr (e : String)
  | httpErr (status : String) (body : String)
  | parseErr (e : String) (body : String)
  | ok (resp : ReplicateResponse)

/-- Outcome of one poll of `poll_prediction`: transport failure, body-parse
failure (`resp.json()`), or the parsed `ReplicateResponse`. -/
inductive PollOutcome where
  | netErr (e : String)
  | parseErr (e : String)
  | ok (resp : ReplicateResponse)

/-- The upstream behaviour one request's vision stage observes: the upload
outcome, the initial submit outcome, and the outcome of each numbered poll
attempt. -/
structure VisionWorld where
  upload : UploadOutcome
  submit : SubmitOutcome
  polls : ℕ → PollOutcome

/-- Rust `Debug` rendering of an `Option<String>` (used by
`poll_prediction`'s failed/canceled message, where the error is `None`). -/
def optionDebug : Option String → String
  | none => "None"
  | some s => "Some(\"" ++ s ++ "\")"

/-- `vision.rs` `upload_image`, over the upload outcome. -/
def upload_image (o : UploadOutcome) : Except String String × List Call :=
  match o with
  | .netErr e => (Except.error ("File upload request failed: " ++ e), [Call.upload])
  | .readErr e => (Except.error ("Failed to read upload response: " ++ e), [Call.upload])
  | .httpErr s b => (Except.error ("File upload failed (" ++ s ++ "): " ++ b), [Call.upload])
  | .parseErr e b =>
      (Except.error ("Failed to parse upload response: " ++ e ++ " — body: " ++ b), [Call.upload])
  | .ok url => (Except.ok url, [Call.upload])

/-- `vision.rs` `poll_prediction`'s `for attempt in 1..=100` loop, with the
remaining attempts as fuel. A transport or parse failure of a poll `?`s out
of the loop; an `error` field is checked before the status; `succeeded`
extracts, `failed`/`canceled` abort, anything else keeps polling. -/
def poll_prediction : (polls : ℕ → PollOutcome) → (fuel attempt : ℕ) →
    Except String VisionResult × List Call
  | _, 0, _ => (Except.error "Prediction timed out after 5 minutes", [])
  | polls, fuel + 1, attempt =>
    match polls attempt with
    | .netErr e => (Except.error ("Poll request failed: " ++ e), [Call.visionPoll])
    | .parseErr e => (Except.error ("Failed to parse poll response: " ++ e), [Call.visionPoll])
    | .ok prediction =>
      match prediction.error with
      | some err => (Except.error ("Prediction failed: " ++ err), [Call.visionPoll])
      | none =>
        match prediction.status with
        | "succeeded" => (extract_result prediction, [Call.visionPoll])
        | "failed" =>
            (Except.error ("Prediction " ++ prediction.status ++ ": "
              ++ optionDebug prediction.error), [Call.visionPoll])
        | "canceled" =>
            (Except.error ("Prediction " ++ prediction.status ++ ": "
              ++ optionDebug prediction.error), [Call.visionPoll])
        | _ =>
            let (r, tr) := poll_prediction polls fuel (attempt + 1)
            (r, Call.visionPoll :: tr)

/-- `vision.rs` `describe_chart`: upload, submit, then either short-circuit
on a terminal submit response or poll. `error` is checked before `status`
on the submit response. -/
def describe_chart (w : VisionWorld) : Except String VisionResult × List Call :=
  match upload_image w.upload with
  | (Except.error e, tr) => (Except.error e, tr)
  | (Except.ok _url, tr) =>
    match w.submit with
    | .netErr e => (Except.error ("Replicate request failed: " ++ e), tr ++ [Call.visionSubmit])
    | .readErr e =>
        (Except.error ("Failed to read Replicate response: " ++ e), tr ++ [Call.visionSubmit])
    | .httpErr s b =>
        (Except.error ("Replicate API error (" ++ s ++ "): " ++ b), tr ++ [Call.visionSubmit])
    | .parseErr e b =>
        (Except.error ("Failed to parse Replicate response: " ++ e ++ " — body: " ++ b),
          tr ++ [Call.visionSubmit])
    | .ok prediction =>
      match prediction.error with
      | some err =>
          (Except.error ("Replicate prediction error: " ++ err), tr ++ [Call.visionSubmit])
      | none =>
        match prediction.status with
        | "succeeded" => (extract_result prediction, tr ++ [Call.visionSubmit])
        | "processing" =>
            let (r, tr2) := poll_prediction w.polls 100 1
            (r, tr ++ [Call.visionSubmit] ++ tr2)
        | "starting" =>
            let (r, tr2) := poll_prediction w.polls 100 1
            (r, tr ++ [Call.visionSubmit] ++ tr2)
        | other =>
            (Except.error ("Unexpected prediction status: " ++ other), tr ++ [Call.visionSubmit])

/-! ### Reasoning stage (`src/analyzer.rs`, response types in `src/models.rs`) -/

/-- `models.rs` `DeepSeekUsage` (u64 counters). -/
structure DeepSeekUsage where
  prompt_tokens : ℕ
  completion_tokens : ℕ
  reasoning_tokens : ℕ
  prompt_cache_hit_tokens : ℕ

/-- `models.rs` `DeepSeekResponseMessage` (the `role` field is dead code in
the source and omitted). -/
structure DeepSeekResponseMessage where
  content : String
  reasoning_content : Option String

/-- `models.rs` `DeepSeekChoice`. -/
structure DeepSeekChoice where
  message : DeepSeekResponseMessage

/-- `models.rs` `DeepSeekResponse`. -/
structure DeepSeekResponse where
  choices : List DeepSeekChoice
  usage : Option DeepSeekUsage

/-- `analyzer.rs` `AnalyzerResult`. -/
structure AnalyzerResult where
  pattern : String
  category : String
  direction : String
  confidence : String
  reasoning : String
  chain_of_thought : Option String
  prompt_tokens : ℕ
  completion_tokens : ℕ
  reasoning_tokens : ℕ
  cache_hit_tokens : ℕ
  cost_usd : ℚ

/-- `analyzer.rs` pricing constants (USD per million tokens). -/
def REASONER_INPUT_PRICE : ℚ := 55 / 100

def REASONER_INPUT_CACHE_PRICE : ℚ := 14 / 100

def REASONER_OUTPUT_PRICE : ℚ := 219 / 100

def REASONER_REASONING_PRICE : ℚ := 219 / 100

/-- `analyzer.rs` lines 129-133: the reasoner cost computation.
`cache_miss_tokens` uses `saturating_sub` (`Nat.sub` saturates). -/
def reasonerCostUsd (prompt_tokens completion_tokens reasoning_tokens cache_hit_tokens : ℕ) : ℚ :=
  let cache_miss_tokens := prompt_tokens - cache_hit_tokens
  (cache_miss_tokens : ℚ) / 1000000 * REASONER_INPUT_PRICE
    + (cache_hit_tokens : ℚ) / 1000000 * REASONER_INPUT_CACHE_PRICE
    + (completion_tokens : ℚ) / 1000000 * REASONER_OUTPUT_PRICE
    + (reasoning_tokens : ℚ) / 1000000 * REASONER_REASONING_PRICE

/-- Rust `str::trim`: drop whitespace from both ends (modelled over the
character list so that it evaluates by kernel reduction). -/
def rustTrim (s : String) : String :=
  String.mk (((s.toList.dropWhile Char.isWhitespace).reverse.dropWhile
    Char.isWhitespace).reverse)

/-- Rust `str::strip_prefix`: `Some` remainder iff the prefix matches. -/
def stripPrefixOpt (s p : String) : Option String :=
  if List.isPrefixOf p.toList s.toList then some (String.mk (s.toList.drop p.toList.length))
  else none

/-- Rust `str::strip_suffix`: `Some` remainder iff the suffix matches. -/
def stripSuffixOpt (s p : String) : Option String :=
  if List.isSuffixOf p.toList s.toList then
    some (String.mk (s.toList.take (s.toList.length - p.toList.length)))
  else none

/-- `analyzer.rs` lines 141-149, verbatim chaining: every `unwrap_or` falls
back to `content.trim()` (the original trimmed content), not to the result
of the previous strip. -/
def stripFences (content : String) : String :=
  let t := rustTrim content
  let s1 := (stripPrefixOpt t "```json").getD t
  let s2 := (stripPrefixOpt s1 "```").getD t
  let s3 := (stripSuffixOpt s2 "```").getD t
  rustTrim s3

/-- `analyzer.rs` `analyze_pattern`, from the successfully parsed
`DeepSeekResponse` on (lines 107-185): choice extraction, usage
defaulting, cost computation, fence stripping, content-JSON parsing and
sentinel-filled field extraction. The `serde_json` parse-error detail
string is abstracted away; the raw content is surfaced as in the source. -/
def analyzePatternResp (resp : DeepSeekResponse) : Except String AnalyzerResult :=
  match resp.choices.head? with
  | none => Except.error "DeepSeek returned no choices"
  | some choice =>
    let content := choice.message.content
    let chain_of_thought := choice.message.reasoning_content
    let counters : ℕ × ℕ × ℕ × ℕ :=
      match resp.usage with
      | some u => (u.prompt_tokens, u.completion_tokens, u.reasoning_tokens,
          u.prompt_cache_hit_tokens)
      | none => (0, 0, 0, 0)
    match counters with
    | (prompt_tokens, completion_tokens, reasoning_tokens, cache_hit_tokens) =>
      let cost_usd := reasonerCostUsd prompt_tokens completion_tokens reasoning_tokens
        cache_hit_tokens
      let json_str := stripFences content
      match Json.parse json_str with
      | none =>
          Except.error ("Failed to parse pattern JSON from DeepSeek — content: " ++ content)
      | some parsed =>
        Except.ok {
          pattern := ((parsed.get "pattern").bind Json.asStr).getD "Unknown"
          category := ((parsed.get "category").bind Json.asStr).getD "Unknown"
          direction := ((parsed.get "direction").bind Json.asStr).getD "Unknown"
          confidence := ((parsed.get "confidence").bind Json.asStr).getD "Unknown"
          reasoning := ((parsed.get "reasoning").bind Json.asStr).getD "No reasoning provided"
          chain_of_thought := chain_of_thought
          prompt_tokens := prompt_tokens
          completion_tokens := completion_tokens
          reasoning_tokens := reasoning_tokens
          cache_hit_tokens := cache_hit_tokens
          cost_usd := cost_usd }

/-- Outcome of the single reasoning-endpoint request of
`analyze_pattern`. -/
inductive ReasonOutcome where
  | netErr (e : String)
  | readErr (e : String)
  | httpErr (status : String) (body : String)
  | parseErr (e : String) (body : String)
  | ok (resp : DeepSeekResponse)

/-- `analyzer.rs` `analyze_pattern`, over the request outcome, with its one
upstream call recorded. -/
def analyze_pattern (o : ReasonOutcome) : Except String AnalyzerResult × List Call :=
  match o with
  | .netErr e => (Except.error ("DeepSeek request failed: " ++ e), [Call.reason])
  | .readErr e => (Except.error ("Failed to read DeepSeek response: " ++ e), [Call.reason])
  | .httpErr s b => (Except.error ("DeepSeek API error (" ++ s ++ "): " ++ b), [Call.reason])
  | .parseErr e b =>
      (Except.error ("Failed to parse DeepSeek response: " ++ e ++ " — body: " ++ b),
        [Call.reason])
  | .ok resp => (analyzePatternResp resp, [Call.reason])

/-! ### Request orchestrator (`src/main.rs` `analyze_handler`)

The multipart decoding of the inbound request is excluded (a thin I/O
wrapper, per the specification's scope); the handler is modelled from its
warmup-status gate on. -/

/-- `main.rs` `WarmupStatus` (`state` is one of `"starting"`, `"warming"`,
`"ready"`, `"failed"`). -/
structure WarmupStatus where
  state : String
  message : String
  elapsed_secs : ℕ
  deriving DecidableEq

/-- `main.rs` `REPLICATE_GPU_RATE` (USD per GPU-second). -/
def REPLICATE_GPU_RATE : ℚ := 1400 / 1000000

/-- `models.rs` `CostBreakdown`. -/
structure CostBreakdown where
  vision_seconds : ℚ
  vision_cost_usd : ℚ
  reasoner_prompt_tokens : ℕ
  reasoner_completion_tokens : ℕ
  reasoner_reasoning_tokens : ℕ
  reasoner_cost_usd : ℚ
  total_cost_usd : ℚ

/-- `models.rs` `AnalyzeResponse`. -/
structure AnalyzeResponse where
  pattern : String
  category : String
  direction : String
  confidence : String
  reasoning : String
  chain_of_thought : Option String
  chart_description : String
  cost : CostBreakdown

/-- The upstream behaviour one full request observes. -/
structure RequestWorld where
  vision : VisionWorld
  reason : ReasonOutcome

/-- `main.rs` `analyze_handler` from the warmup gate on: reject unless
`ready`; vision stage; vision cost; reasoning stage; combined cost.
Errors carry the HTTP status code (503 `SERVICE_UNAVAILABLE`,
500 `INTERNAL_SERVER_ERROR`) and message. -/
def analyze_handler (w : WarmupStatus) (world : RequestWorld) :
    Except (ℕ × String) AnalyzeResponse × List Call :=
  if w.state ≠ "ready" then
    (Except.error (503, "Model not ready: " ++ w.message), [])
  else
    match describe_chart world.vision with
    | (Except.error e, tr) => (Except.error (500, "Vision analysis failed: " ++ e), tr)
    | (Except.ok vision_result, tr) =>
      let vision_cost := vision_result.predict_seconds * REPLICATE_GPU_RATE
      match analyze_pattern world.reason with
      | (Except.error e, tr2) =>
          (Except.error (500, "Pattern analysis failed: " ++ e), tr ++ tr2)
      | (Except.ok analysis, tr2) =>
        let total_cost := vision_cost + analysis.cost_usd
        (Except.ok {
          pattern := analysis.pattern
          category := analysis.category
          direction := analysis.direction
          confidence := analysis.confidence
          reasoning := analysis.reasoning
          chain_of_thought := analysis.chain_of_thought
          chart_description := vision_result.description
          cost := {
            vision_seconds := vision_result.predict_seconds
            vision_cost_usd := vision_cost
            reasoner_prompt_tokens := analysis.prompt_tokens
            reasoner_completion_tokens := analysis.completion_tokens
            reasoner_reasoning_tokens := analysis.reasoning_tokens
            reasoner_cost_usd := analysis.cost_usd
            total_cost_usd := total_cost } }, tr ++ tr2)

/-! ### Warmup monitor (`src/main.rs` `run_warmup`)

The background task is modelled as the ordered trace of its externally
visible events: writes of the shared `WarmupStatus` cell (each event holds
the full cell value after the write, since every mutation happens under
the exclusive lock) and upstream network calls. `start.elapsed()` is a
monotone reading `elapsed i`, indexed by the moment it is taken: index 0
for the reading after the submit response, index `i ≥ 1` for the reading
at poll attempt `i`. -/

/-- Outcome of the warmup submit call: transport failure, body-parse
failure (`r.json()`), or the parsed JSON body. -/
inductive WSubmitOutcome where
  | netErr (e : String)
  | parseErr (e : String)
  | ok (body : Json)

/-- Outcome of one warmup poll. -/
inductive WPollOutcome where
  | netErr (e : String)
  | parseErr (e : String)
  | ok (body : Json)

/-- The upstream behaviour the warmup task observes. -/
structure WarmupWorld where
  submit : WSubmitOutcome
  polls : ℕ → WPollOutcome
  elapsed : ℕ → ℕ

/-- An externally visible event of the warmup task. -/
inductive WEvent where
  | write (s : WarmupStatus)
  | net (c : Call)

/-- The initial cell value installed by `main` (lines 63-67). -/
def startingStatus : WarmupStatus :=
  { state := "starting", message := "server starting...", elapsed_secs := 0 }

/-- The first write of `run_warmup` (lines 98-103). -/
def warmingStatus : WarmupStatus :=
  { state := "warming", message := "sending warmup request to replicate...", elapsed_secs := 0 }

/-- The per-attempt progress write of the warmup poll loop
(lines 183-187): message and elapsed updated, state untouched. -/
def tickOf (world : WarmupWorld) (attempt : ℕ) (cur : WarmupStatus) : WarmupStatus :=
  { cur with
    message := "warming up model... " ++ toString (world.elapsed attempt) ++ "s"
    elapsed_secs := world.elapsed attempt }

/-- `run_warmup`'s poll loop (`for attempt in 1..=120`), with the remaining
attempts as fuel and `cur` the cell value last written. Network and parse
failures `continue`; `succeeded` ends in `ready`; `failed`/`canceled` end
in `failed`; exhaustion ends in the timeout `failed` write (which updates
state and message only). -/
def warmup_poll (world : WarmupWorld) : (fuel attempt : ℕ) → WarmupStatus → List WEvent
  | 0, _, cur =>
    [WEvent.write { cur with state := "failed", message := "warmup timed out after 6 minutes" }]
  | fuel + 1, attempt, cur =>
    let tick := tickOf world attempt cur
    WEvent.write tick :: WEvent.net Call.warmPoll ::
      (match world.polls attempt with
       | .netErr _ => warmup_poll world fuel (attempt + 1) tick
       | .parseErr _ => warmup_poll world fuel (attempt + 1) tick
       | .ok body =>
         let status := ((body.get "status").bind Json.asStr).getD ""
         if status = "succeeded" then
           [WEvent.write {
             state := "ready"
             message := "model ready (" ++ toString (world.elapsed attempt) ++ "s)"
             elapsed_secs := world.elapsed attempt }]
         else if status = "failed" ∨ status = "canceled" then
           let err_msg := ((body.get "error").bind Json.asStr).getD "unknown"
           [WEvent.write { tick with state := "failed", message := "warmup failed: " ++ err_msg }]
         else warmup_poll world fuel (attempt + 1) tick)

/-- `main.rs` `run_warmup` as its event trace: the warming write, the
submit call, then per submit outcome either a terminal write (failure
paths, or the already-warm `ready` short-circuit) or the poll loop. The
submit path checks the body's `detail` field, then whether `status` is
`succeeded`, then extracts the prediction `id`. -/
def run_warmup (world : WarmupWorld) : List WEvent :=
  WEvent.write warmingStatus :: WEvent.net Call.warmSubmit ::
    (match world.submit with
     | .netErr e =>
         [WEvent.write { warmingStatus with
           state := "failed", message := "warmup request failed: " ++ e }]
     | .parseErr e =>
         [WEvent.write { warmingStatus with
           state := "failed", message := "warmup parse error: " ++ e }]
     | .ok body =>
       match (body.get "detail").bind Json.asStr with
       | some err =>
           [WEvent.write { warmingStatus with
             state := "failed", message := "replicate error: " ++ err }]
       | none =>
         let status := ((body.get "status").bind Json.asStr).getD ""
         if status = "succeeded" then
           [WEvent.write {
             state := "ready", message := "model ready", elapsed_secs := world.elapsed 0 }]
         else
           match (body.get "id").bind Json.asStr with
           | some _id => warmup_poll world 120 1 warmingStatus
           | none =>
               [WEvent.write { warmingStatus with
                 state := "failed", message := "no prediction id: " ++ renderJson body }])

/-- A terminal warmup state. -/
def isTerminal (s : WarmupStatus) : Bool :=
  s.state == "ready" || s.state == "failed"

/-- The successive cell values written along a trace. -/
def writesOf : List WEvent → List WarmupStatus
  | [] => []
  | WEvent.write s :: rest => s :: writesOf rest
  | WEvent.net _ :: rest => writesOf rest

/-- Comparison of successive status reads by their elapsed seconds. -/
def elapsedLE (a b : WarmupStatus) : Prop :=
  a.elapsed_secs ≤ b.elapsed_secs

/-! ### Concrete fixtures for witnesses and counterexamples -/

/-- A ready warmup snapshot. -/
def readyStatus : WarmupStatus :=
  { state := "ready", message := "model ready", elapsed_secs := 42 }

/-- A still-warming warmup snapshot. -/
def warmStatus : WarmupStatus :=
  { state := "warming", message := "warming up model... 9s", elapsed_secs := 9 }

/-- A vision submit response that is already terminal: description `"D"`,
12 reported predict seconds. -/
def succVisionResp : ReplicateResponse :=
  { id := "p1", status := "succeeded", output := some (Json.str "D"), error := none,
    metrics := some { predict_time := some 12 } }

/-- A well-formed reasoning answer (plain JSON object, no fences). -/
def exReasonContent : String :=
  "\x7b\"pattern\": \"Hammer\", \"category\": \"Single\", \"direction\": \"Bullish\", \"confidence\": \"High\", \"reasoning\": \"long lower wick\"\x7d"

/-- A reasoning response with usage 500 prompt / 50 completion /
0 reasoning / 0 cache-hit tokens. -/
def exDeepSeekResp : DeepSeekResponse :=
  { choices := [{ message := { content := exReasonContent, reasoning_content := none } }]
    usage := some {
      prompt_tokens := 500
      completion_tokens := 50
      reasoning_tokens := 0
      prompt_cache_hit_tokens := 0 } }

/-- A request world in which both stages succeed: the spec's worked
end-to-end example (predict 12 s; usage 500/0/50/0). -/
def exRequestWorld : RequestWorld :=
  { vision := {
      upload := .ok "https://files/x"
      submit := .ok succVisionResp
      polls := fun _ => .netErr "unused" }
    reason := .ok exDeepSeekResp }

/-- The successful response `analyze_handler` produces on
`exRequestWorld`. -/
def c2Resp : AnalyzeResponse :=
  { pattern := "Hammer", category := "Single", direction := "Bullish", confidence := "High",
    reasoning := "long lower wick", chain_of_thought := none, chart_description := "D",
    cost := {
      vision_seconds := 12
      vision_cost_usd := 12 * REPLICATE_GPU_RATE
      reasoner_prompt_tokens := 500
      reasoner_completion_tokens := 50
      reasoner_reasoning_tokens := 0
      reasoner_cost_usd := reasonerCostUsd 500 50 0 0
      total_cost_usd := 12 * REPLICATE_GPU_RATE + reasonerCostUsd 500 50 0 0 } }

/-- A reasoning response whose body carries no usage block. -/
def c1NoUsageResp : DeepSeekResponse :=
  { choices := [{ message := { content := exReasonContent, reasoning_content := none } }],
    usage := none }

/-- The result `analyzePatternResp` produces on `c1NoUsageResp`. -/
def c1NoUsageRes : AnalyzerResult :=
  { pattern := "Hammer", category := "Single", direction := "Bullish", confidence := "High",
    reasoning := "long lower wick", chain_of_thought := none, prompt_tokens := 0,
    completion_tokens := 0, reasoning_tokens := 0, cache_hit_tokens := 0,
    cost_usd := reasonerCostUsd 0 0 0 0 }

/-- A warmup world that polls twice and then succeeds. -/
def c4World : WarmupWorld :=
  { submit := .ok (Json.obj [("id", Json.str "w1"), ("status", Json.str "starting")]),
    polls := fun i =>
      if 2 ≤ i then .ok (Json.obj [("status", Json.str "succeeded")])
      else .ok (Json.obj [("status", Json.str "processing")]),
    elapsed := fun i => i }

/-- A terminal vision poll response without timing metrics. -/
def c5SuccResp : ReplicateResponse :=
  { id := "p1", status := "succeeded", output := some (Json.str "D"), error := none,
    metrics := none }

/-- Vision polls: the first attempt's body fails to parse, every later
attempt would succeed. -/
def c5Polls : ℕ → PollOutcome :=
  fun a => if a = 1 then .parseErr "bad" else .ok c5SuccResp

/-- A warmup world whose polls always fail at the transport level. -/
def c5WarmWorld : WarmupWorld :=
  { submit := .ok (Json.obj [("id", Json.str "w3"), ("status", Json.str "starting")]),
    polls := fun _ => .netErr "down",
    elapsed := fun i => i }

/-- A warmup poll body that reads `succeeded` and simultaneously carries a
non-empty `error` field. -/
def c6Body : Json :=
  Json.obj [("status", Json.str "succeeded"), ("error", Json.str "boom")]

/-- Warmup world delivering `c6Body` on the first poll. -/
def c6World : WarmupWorld :=
  { submit := .ok (Json.obj [("id", Json.str "w2"), ("status", Json.str "starting")]),
    polls := fun _ => .ok c6Body,
    elapsed := fun _ => 0 }

/-- A vision submit response with `status: succeeded` and a non-empty
`error` field. -/
def c6VisionResp : ReplicateResponse :=
  { id := "p9", status := "succeeded", output := some (Json.str "D"), error := some "cuda OOM",
    metrics := none }

/-- Vision world delivering `c6VisionResp` from the submit call. -/
def c6VisionWorld : VisionWorld :=
  { upload := .ok "u", submit := .ok c6VisionResp, polls := fun _ => .netErr "unused" }

/-- A reasoning answer wrapped in a language-tagged markdown fence. -/
def fencedContent : String := "```json\n\x7b\"pattern\": \"Hammer\"\x7d\n```"

/-- A reasoning response whose content is `fencedContent`. -/
def c8Resp : DeepSeekResponse :=
  { choices := [{ message := { content := fencedContent, reasoning_content := none } }],
    usage := none }

/-- A terminal vision response with the spec's three-fragment array
output and no timing metrics. -/
def c7ArrResp : ReplicateResponse :=
  { id := "x"
    status := "succeeded"
    output := some (Json.arr [Json.str "a", Json.str "b", Json.str "c"])
    error := none
    metrics := none }

/-- A terminal vision response with a bare-string output and 7 reported
predict seconds. -/
def c7StrResp : ReplicateResponse :=
  { id := "w"
    status := "succeeded"
    output := some (Json.str "three green candles")
    error := none
    metrics := some { predict_time := some 7 } }

/-- A terminal vision response whose output is the bare empty string. -/
def c7EmptyStrResp : ReplicateResponse :=
  { id := "p"
    status := "succeeded"
    output := some (Json.str "")
    error := none
    metrics := none }

/-- A terminal vision response whose output array mixes strings and
non-strings. -/
def c10Resp : ReplicateResponse :=
  { id := "y", status := "succeeded",
    output := some (Json.arr [Json.num 1, Json.str "a", Json.null, Json.str "b"]),
    error := none, metrics := none }

/-- A terminal vision response whose output array has no string element. -/
def c10NonStrResp : ReplicateResponse :=
  { id := "z", status := "succeeded",
    output := some (Json.arr [Json.num 1, Json.bool true]),
    error := none, metrics := none }

/-! ### Theorems -/

/-- Helper: whenever `analyzePatternResp` succeeds, the result's counters
and cost are exactly the ones extracted from the response's usage block
(defaulting to zero without one). -/
theorem analyzePatternResp_ok_usage (resp : DeepSeekResponse) (res : AnalyzerResult)
    (h : analyzePatternResp resp = Except.ok res) :
    res.prompt_tokens = ((resp.usage.map fun u => u.prompt_tokens).getD 0)
    ∧ res.completion_tokens = ((resp.usage.map fun u => u.completion_tokens).getD 0)
    ∧ res.reasoning_tokens = ((resp.usage.map fun u => u.reasoning_tokens).getD 0)
    ∧ res.cache_hit_tokens = ((resp.usage.map fun u => u.prompt_cache_hit_tokens).getD 0)
    ∧ res.cost_usd = reasonerCostUsd ((resp.usage.map fun u => u.prompt_tokens).getD 0)
        ((resp.usage.map fun u => u.completion_tokens).getD 0)
        ((resp.usage.map fun u => u.reasoning_tokens).getD 0)
        ((resp.usage.map fun u => u.prompt_cache_hit_tokens).getD 0) := by
  cases hch : resp.choices.head? with
  | none => simp [analyzePatternResp, hch] at h
  | some choice =>
    cases hu : resp.usage with
    | none =>
      cases hp : Json.parse (stripFences choice.message.content) with
      | none => simp [analyzePatternResp, hch, hu, hp] at h
      | some parsed =>
        simp only [analyzePatternResp, hch, hu, hp, Except.ok.injEq] at h
        subst h
        simp [hu]
    | some u =>
      cases hp : Json.parse (stripFences choice.message.content) with
      | none => simp [analyzePatternResp, hch, hu, hp] at h
      | some parsed =>
        simp only [analyzePatternResp, hch, hu, hp, Except.ok.injEq] at h
        subst h
        simp [hu]

/-- C1: the reasoner cost computed by `analyze_pattern` equals
`(prompt − cache_hit, saturating) × 0.55/1M + cache_hit × 0.14/1M +
completion × 2.19/1M + reasoning × 2.19/1M` for all counters; with
`cache_hit > prompt` the cache-miss term saturates to zero; a response
without a usage block yields all-zero counters and zero cost; the worked
example gives 0.001043 USD. -/
theorem c1_reasoner_cost_model :
    (∀ p comp r c : ℕ, reasonerCostUsd p comp r c =
        ((p - c : ℕ) : ℚ) * ((55 : ℚ) / 100) / 1000000
          + (c : ℚ) * ((14 : ℚ) / 100) / 1000000
          + (comp : ℚ) * ((219 : ℚ) / 100) / 1000000
          + (r : ℚ) * ((219 : ℚ) / 100) / 1000000)
    ∧ (∀ p comp r c : ℕ, p < c → reasonerCostUsd p comp r c =
        (c : ℚ) * ((14 : ℚ) / 100) / 1000000
          + (comp : ℚ) * ((219 : ℚ) / 100) / 1000000
          + (r : ℚ) * ((219 : ℚ) / 100) / 1000000)
    ∧ (∀ resp res, resp.usage = none → analyzePatternResp resp = Except.ok res →
        res.cost_usd = 0 ∧ res.prompt_tokens = 0 ∧ res.completion_tokens = 0
          ∧ res.reasoning_tokens = 0 ∧ res.cache_hit_tokens = 0)
    ∧ (∀ resp res u, resp.usage = some u → analyzePatternResp resp = Except.ok res →
        res.cost_usd = reasonerCostUsd u.prompt_tokens u.completion_tokens
          u.reasoning_tokens u.prompt_cache_hit_tokens)
    ∧ reasonerCostUsd 1000 200 100 400 = 1043 / 1000000 := by
  refine ⟨?_, ?_, ?_, ?_, ?_⟩
  · intro p comp r c
    simp only [reasonerCostUsd, REASONER_INPUT_PRICE, REASONER_INPUT_CACHE_PRICE,
      REASONER_OUTPUT_PRICE, REASONER_REASONING_PRICE]
    ring
  · intro p comp r c hlt
    simp only [reasonerCostUsd, REASONER_INPUT_PRICE, REASONER_INPUT_CACHE_PRICE,
      REASONER_OUTPUT_PRICE, REASONER_REASONING_PRICE, Nat.sub_eq_zero_of_le hlt.le]
    push_cast
    ring
  · intro resp res hu h
    have hk := analyzePatternResp_ok_usage resp res h
    rw [hu] at hk
    simp only [Option.map_none', Option.getD_none] at hk
    obtain ⟨h1, h2, h3, h4, h5⟩ := hk
    refine ⟨?_, h1, h2, h3, h4⟩
    rw [h5]
    norm_num [reasonerCostUsd]
  · intro resp res u hu h
    have hk := analyzePatternResp_ok_usage resp res h
    rw [hu] at hk
    simpa using hk.2.2.2.2
  · norm_num [reasonerCostUsd, REASONER_INPUT_PRICE, REASONER_INPUT_CACHE_PRICE,
      REASONER_OUTPUT_PRICE, REASONER_REASONING_PRICE]

/-- Witness for C1: the saturation clause at `prompt = 3 < cache_hit = 5`,
and the no-usage clause on the concrete `c1NoUsageResp`, whose result has
zero cost and counters. -/
theorem c1_witness :
    reasonerCostUsd 3 0 0 5 = (5 : ℚ) * ((14 : ℚ) / 100) / 1000000
      + (0 : ℚ) * ((219 : ℚ) / 100) / 1000000 + (0 : ℚ) * ((219 : ℚ) / 100) / 1000000
    ∧ (c1NoUsageRes.cost_usd = 0 ∧ c1NoUsageRes.prompt_tokens = 0
        ∧ c1NoUsageRes.completion_tokens = 0 ∧ c1NoUsageRes.reasoning_tokens = 0
        ∧ c1NoUsageRes.cache_hit_tokens = 0) :=
  ⟨c1_reasoner_cost_model.2.1 3 0 0 5 (by norm_num),
   c1_reasoner_cost_model.2.2.1 c1NoUsageResp c1NoUsageRes rfl (by rfl)⟩

/-- C3: a request arriving while the shared warmup status is not `ready`
is rejected immediately (HTTP 503) with a message naming the current
warmup message, and performs zero upstream calls. -/
theorem c3_not_ready_rejected (w : WarmupStatus) (world : RequestWorld)
    (h : w.state ≠ "ready") :
    analyze_handler w world =
      (Except.error (503, "Model not ready: " ++ w.message), []) := by
  unfold analyze_handler
  rw [if_pos h]

/-- Witness for C3 at a concrete `warming` snapshot. -/
theorem c3_witness :
    warmStatus.state ≠ "ready"
    ∧ analyze_handler warmStatus exRequestWorld =
        (Except.error (503, "Model not ready: warming up model... 9s"), []) :=
  ⟨by decide, c3_not_ready_rejected warmStatus exRequestWorld (by decide)⟩

/-- C2 (amended): for every successfully completed analysis request the
reported vision cost is `predict_seconds × 0.0014` and the reported total
is exactly `vision + reasoner`; the spec's worked example
(predict 12 s, usage 500/0/50/0) yields vision cost 0.0168 USD and total
0.0171845 USD (not 0.017185 as the claim computes). -/
theorem c2_cost_breakdown :
    (∀ (w : WarmupStatus) (world : RequestWorld) (resp : AnalyzeResponse),
        (analyze_handler w world).1 = Except.ok resp →
        resp.cost.total_cost_usd = resp.cost.vision_cost_usd + resp.cost.reasoner_cost_usd
          ∧ resp.cost.vision_cost_usd = resp.cost.vision_seconds * ((14 : ℚ) / 10000))
    ∧ ((analyze_handler readyStatus exRequestWorld).1.map fun r => r.cost.vision_seconds)
        = Except.ok 12
    ∧ ((analyze_handler readyStatus exRequestWorld).1.map fun r => r.cost.vision_cost_usd)
        = Except.ok ((168 : ℚ) / 10000)
    ∧ ((analyze_handler readyStatus exRequestWorld).1.map fun r => r.cost.total_cost_usd)
        = Except.ok ((171845 : ℚ) / 10000000) := by
  have hrun : (analyze_handler readyStatus exRequestWorld).1 = Except.ok c2Resp := rfl
  refine ⟨?_, rfl, ?_, ?_⟩
  · intro w world resp h
    unfold analyze_handler at h
    by_cases hw : w.state = "ready"
    · rw [if_neg (by simp [hw])] at h
      rcases hdc : describe_chart world.vision with ⟨r1, tr1⟩
      rw [hdc] at h
      cases r1 with
      | error e => simp at h
      | ok vr =>
        rcases hap : analyze_pattern world.reason with ⟨r2, tr2⟩
        rw [hap] at h
        cases r2 with
        | error e => simp at h
        | ok an =>
          simp only [Except.ok.injEq] at h
          subst h
          refine ⟨rfl, ?_⟩
          show vr.predict_seconds * REPLICATE_GPU_RATE = vr.predict_seconds * ((14 : ℚ) / 10000)
          norm_num [REPLICATE_GPU_RATE]
    · rw [if_pos hw] at h
      simp at h
  · rw [hrun]
    simp only [Except.map]
    norm_num [c2Resp, REPLICATE_GPU_RATE]
  · rw [hrun]
    simp only [Except.map]
    norm_num [c2Resp, REPLICATE_GPU_RATE, reasonerCostUsd, REASONER_INPUT_PRICE,
      REASONER_INPUT_CACHE_PRICE, REASONER_OUTPUT_PRICE, REASONER_REASONING_PRICE]

/-- Witness for C2's cost invariants on the concrete successful request
`exRequestWorld`. -/
theorem c2_witness :
    c2Resp.cost.total_cost_usd = c2Resp.cost.vision_cost_usd + c2Resp.cost.reasoner_cost_usd
    ∧ c2Resp.cost.vision_cost_usd = c2Resp.cost.vision_seconds * ((14 : ℚ) / 10000) :=
  c2_cost_breakdown.1 readyStatus exRequestWorld c2Resp (by rfl)

/-- Counterexample for C2 as stated: the claimed example total 0.017185
USD differs from the total the code computes on exactly that example,
which is 0.0171845 USD. -/
theorem c2_counterexample :
    ((analyze_handler readyStatus exRequestWorld).1.map fun r => r.cost.total_cost_usd)
      = Except.ok ((171845 : ℚ) / 10000000)
    ∧ ((171845 : ℚ) / 10000000) ≠ (17185 : ℚ) / 1000000 := by
  constructor
  · rw [show (analyze_handler readyStatus exRequestWorld).1 = Except.ok c2Resp from rfl]
    simp only [Except.map]
    norm_num [c2Resp, REPLICATE_GPU_RATE, reasonerCostUsd, REASONER_INPUT_PRICE,
      REASONER_INPUT_CACHE_PRICE, REASONER_OUTPUT_PRICE, REASONER_REASONING_PRICE]
  · norm_num

/-- C5 (amended): in the warmup polling loop a poll whose network call
fails or whose body fails to parse is swallowed (the loop just moves to
the next attempt after its progress write), but in the per-request vision
polling loop such a failure terminates the loop immediately with an
error. -/
theorem c5_poll_failure_handling :
    (∀ (world : WarmupWorld) (fuel attempt : ℕ) (cur : WarmupStatus) (e : String),
        world.polls attempt = WPollOutcome.netErr e →
        warmup_poll world (fuel + 1) attempt cur =
          WEvent.write (tickOf world attempt cur) :: WEvent.net Call.warmPoll ::
            warmup_poll world fuel (attempt + 1) (tickOf world attempt cur))
    ∧ (∀ (world : WarmupWorld) (fuel attempt : ℕ) (cur : WarmupStatus) (e : String),
        world.polls attempt = WPollOutcome.parseErr e →
        warmup_poll world (fuel + 1) attempt cur =
          WEvent.write (tickOf world attempt cur) :: WEvent.net Call.warmPoll ::
            warmup_poll world fuel (attempt + 1) (tickOf world attempt cur))
    ∧ (∀ (polls : ℕ → PollOutcome) (fuel attempt : ℕ) (e : String),
        polls attempt = PollOutcome.netErr e →
        poll_prediction polls (fuel + 1) attempt =
          (Except.error ("Poll request failed: " ++ e), [Call.visionPoll]))
    ∧ (∀ (polls : ℕ → PollOutcome) (fuel attempt : ℕ) (e : String),
        polls attempt = PollOutcome.parseErr e →
        poll_prediction polls (fuel + 1) attempt =
          (Except.error ("Failed to parse poll response: " ++ e), [Call.visionPoll])) := by
  refine ⟨?_, ?_, ?_, ?_⟩
  · intro world fuel attempt cur e h
    simp only [warmup_poll, h]
  · intro world fuel attempt cur e h
    simp only [warmup_poll, h]
  · intro polls fuel attempt e h
    simp only [poll_prediction, h]
  · intro polls fuel attempt e h
    simp only [poll_prediction, h]

/-- Witness for C5: a concrete transport-failing warmup poll continues the
loop, and a concrete parse-failing vision poll would have been followed by
a successful attempt. -/
theorem c5_witness :
    c5WarmWorld.polls 1 = WPollOutcome.netErr "down"
    ∧ warmup_poll c5WarmWorld 120 1 warmingStatus =
        WEvent.write (tickOf c5WarmWorld 1 warmingStatus) :: WEvent.net Call.warmPoll ::
          warmup_poll c5WarmWorld 119 2 (tickOf c5WarmWorld 1 warmingStatus) :=
  ⟨rfl, c5_poll_failure_handling.1 c5WarmWorld 119 1 warmingStatus "down" rfl⟩

/-- Counterexample for C5 as stated: in the per-request vision polling a
first-attempt parse failure produces an error and ends the loop, although
every later attempt would have succeeded. -/
theorem c5_counterexample :
    poll_prediction c5Polls 100 1
      = (Except.error "Failed to parse poll response: bad", [Call.visionPoll])
    ∧ (poll_prediction (fun _ => PollOutcome.ok c5SuccResp) 100 1).1
        = Except.ok { description := "D", predict_seconds := 0 } :=
  ⟨rfl, rfl⟩

/-- C6 (amended): in the per-request vision path a non-empty `error` field
is fatal on both the initial and every polled response, regardless of the
`status` field (even `succeeded`); in the warmup path the `status` field
is consulted first, so a poll body whose status reads `succeeded` makes
warmup `ready` regardless of any `error` field. -/
theorem c6_error_field_precedence :
    (∀ (w : VisionWorld) (url : String) (pred : ReplicateResponse) (e : String),
        w.upload = UploadOutcome.ok url → w.submit = SubmitOutcome.ok pred →
        pred.error = some e →
        (describe_chart w).1 = Except.error ("Replicate prediction error: " ++ e))
    ∧ (∀ (polls : ℕ → PollOutcome) (fuel attempt : ℕ) (pred : ReplicateResponse) (e : String),
        polls attempt = PollOutcome.ok pred → pred.error = some e →
        poll_prediction polls (fuel + 1) attempt =
          (Except.error ("Prediction failed: " ++ e), [Call.visionPoll]))
    ∧ (∀ (world : WarmupWorld) (fuel attempt : ℕ) (cur : WarmupStatus) (body : Json),
        world.polls attempt = WPollOutcome.ok body →
        ((body.get "status").bind Json.asStr).getD "" = "succeeded" →
        warmup_poll world (fuel + 1) attempt cur =
          [WEvent.write (tickOf world attempt cur), WEvent.net Call.warmPoll,
            WEvent.write {
              state := "ready"
              message := "model ready (" ++ toString (world.elapsed attempt) ++ "s)"
              elapsed_secs := world.elapsed attempt }]) := by
  refine ⟨?_, ?_, ?_⟩
  · intro w url pred e hup hsub herr
    simp only [describe_chart, upload_image, hup, hsub, herr]
  · intro polls fuel attempt pred e hpoll herr
    simp only [poll_prediction, hpoll, herr]
  · intro world fuel attempt cur body hpoll hstatus
    simp only [warmup_poll, hpoll, hstatus, if_pos]

/-- Witness for C6's vision-path precedence: a submit response with
`status: succeeded` and `error: "cuda OOM"` fails the request with the
error message. -/
theorem c6_witness :
    c6VisionResp.status = "succeeded"
    ∧ c6VisionResp.error = some "cuda OOM"
    ∧ (describe_chart c6VisionWorld).1 = Except.error "Replicate prediction error: cuda OOM" :=
  ⟨rfl, rfl, c6_error_field_precedence.1 c6VisionWorld "u" c6VisionResp "cuda OOM" rfl rfl rfl⟩

/-- Counterexample for C6 as stated: a warmup poll body carrying both
`status: succeeded` and the non-empty error `"boom"` ends warmup in the
`ready` state, not in a failure naming the error. -/
theorem c6_counterexample :
    c6Body.get "error" = some (Json.str "boom")
    ∧ ((c6Body.get "status").bind Json.asStr).getD "" = "succeeded"
    ∧ ((writesOf (run_warmup c6World)).getLast?.map fun s => s.state) = some "ready" :=
  ⟨rfl, rfl, rfl⟩

/-- Helper: the warmup poll loop, started at a non-terminal cell value
whose elapsed seconds do not exceed the next reading, always ends with
exactly one terminal write as its final event, writes no other terminal
value, and its successive cell values have non-decreasing elapsed
seconds. -/
theorem warmup_poll_spec (world : WarmupWorld)
    (hmono : ∀ i j, i ≤ j → world.elapsed i ≤ world.elapsed j) :
    ∀ (fuel attempt : ℕ) (cur : WarmupStatus), isTerminal cur = false →
      cur.elapsed_secs ≤ world.elapsed attempt →
      ((∃ pre t, warmup_poll world fuel attempt cur = pre ++ [WEvent.write t]
          ∧ isTerminal t = true
          ∧ ∀ s, WEvent.write s ∈ pre → isTerminal s = false)
        ∧ List.Chain' elapsedLE (cur :: writesOf (warmup_poll world fuel attempt cur))) := by
  intro fuel
  induction fuel with
  | zero =>
    intro attempt cur hterm hle
    refine ⟨⟨[], { cur with state := "failed", message := "warmup timed out after 6 minutes" },
      rfl, rfl, ?_⟩, ?_⟩
    · intro s hs
      simp at hs
    · simp only [warmup_poll, writesOf]
      exact List.chain'_cons.mpr ⟨le_refl cur.elapsed_secs, List.chain'_singleton _⟩
  | succ fuel ih =>
    intro attempt cur hterm hle
    have htick : isTerminal (tickOf world attempt cur) = false := hterm
    have htickle : (tickOf world attempt cur).elapsed_secs ≤ world.elapsed (attempt + 1) :=
      hmono attempt (attempt + 1) (Nat.le_succ attempt)
    have hcurtick : elapsedLE cur (tickOf world attempt cur) := hle
    cases hpoll : world.polls attempt with
    | netErr e =>
      have heq : warmup_poll world (fuel + 1) attempt cur =
          WEvent.write (tickOf world attempt cur) :: WEvent.net Call.warmPoll ::
            warmup_poll world fuel (attempt + 1) (tickOf world attempt cur) := by
        simp only [warmup_poll, hpoll]
      obtain ⟨⟨pre, t, hrec, htermt, hpre⟩, hchain⟩ := ih (attempt + 1) (tickOf world attempt cur)
        htick htickle
      refine ⟨⟨WEvent.write (tickOf world attempt cur) :: WEvent.net Call.warmPoll :: pre, t,
        ?_, htermt, ?_⟩, ?_⟩
      · rw [heq, hrec]
        rfl
      · intro s hs
        simp only [List.mem_cons] at hs
        rcases hs with h1 | h2 | h3
        · cases h1
          exact htick
        · exact WEvent.noConfusion h2
        · exact hpre s h3
      · rw [heq]
        simp only [writesOf]
        exact List.chain'_cons.mpr ⟨hcurtick, hchain⟩
    | parseErr e =>
      have heq : warmup_poll world (fuel + 1) attempt cur =
          WEvent.write (tickOf world attempt cur) :: WEvent.net Call.warmPoll ::
            warmup_poll world fuel (attempt + 1) (tickOf world attempt cur) := by
        simp only [warmup_poll, hpoll]
      obtain ⟨⟨pre, t, hrec, htermt, hpre⟩, hchain⟩ := ih (attempt + 1) (tickOf world attempt cur)
        htick htickle
      refine ⟨⟨WEvent.write (tickOf world attempt cur) :: WEvent.net Call.warmPoll :: pre, t,
        ?_, htermt, ?_⟩, ?_⟩
      · rw [heq, hrec]
        rfl
      · intro s hs
        simp only [List.mem_cons] at hs
        rcases hs with h1 | h2 | h3
        · cases h1
          exact htick
        · exact WEvent.noConfusion h2
        · exact hpre s h3
      · rw [heq]
        simp only [writesOf]
        exact List.chain'_cons.mpr ⟨hcurtick, hchain⟩
    | ok body =>
      by_cases hs : ((body.get "status").bind Json.asStr).getD "" = "succeeded"
      · have heq : warmup_poll world (fuel + 1) attempt cur =
            [WEvent.write (tickOf world attempt cur), WEvent.net Call.warmPoll,
              WEvent.write {
                state := "ready"
                message := "model ready (" ++ toString (world.elapsed attempt) ++ "s)"
                elapsed_secs := world.elapsed attempt }] := by
          simp only [warmup_poll, hpoll, hs, if_true, if_pos]
        refine ⟨⟨[WEvent.write (tickOf world attempt cur), WEvent.net Call.warmPoll],
          { state := "ready"
            message := "model ready (" ++ toString (world.elapsed attempt) ++ "s)"
            elapsed_secs := world.elapsed attempt },
          by rw [heq]; rfl, rfl, ?_⟩, ?_⟩
        · intro s hsm
          simp only [List.mem_cons] at hsm
          rcases hsm with h1 | h2 | h3
          · cases h1
            exact htick
          · exact WEvent.noConfusion h2
          · simp at h3
        · rw [heq]
          simp only [writesOf]
          refine List.chain'_cons.mpr ⟨hcurtick, List.chain'_cons.mpr ⟨?_, List.chain'_singleton _⟩⟩
          exact le_refl (world.elapsed attempt)
      · by_cases hf : ((body.get "status").bind Json.asStr).getD "" = "failed"
            ∨ ((body.get "status").bind Json.asStr).getD "" = "canceled"
        · have heq : warmup_poll world (fuel + 1) attempt cur =
              [WEvent.write (tickOf world attempt cur), WEvent.net Call.warmPoll,
                WEvent.write { tickOf world attempt cur with
                  state := "failed"
                  message := "warmup failed: "
                    ++ ((body.get "error").bind Json.asStr).getD "unknown" }] := by
            simp only [warmup_poll, hpoll, if_neg hs, if_pos hf]
          refine ⟨⟨[WEvent.write (tickOf world attempt cur), WEvent.net Call.warmPoll],
            { tickOf world attempt cur with
              state := "failed"
              message := "warmup failed: "
                ++ ((body.get "error").bind Json.asStr).getD "unknown" },
            by rw [heq]; rfl, rfl, ?_⟩, ?_⟩
          · intro s hsm
            simp only [List.mem_cons] at hsm
            rcases hsm with h1 | h2 | h3
            · cases h1
              exact htick
            · exact WEvent.noConfusion h2
            · simp at h3
          · rw [heq]
            simp only [writesOf]
            refine List.chain'_cons.mpr ⟨hcurtick,
              List.chain'_cons.mpr ⟨?_, List.chain'_singleton _⟩⟩
            exact le_refl (tickOf world attempt cur).elapsed_secs
        · have heq : warmup_poll world (fuel + 1) attempt cur =
              WEvent.write (tickOf world attempt cur) :: WEvent.net Call.warmPoll ::
                warmup_poll world fuel (attempt + 1) (tickOf world attempt cur) := by
            simp only [warmup_poll, hpoll, if_neg hs, if_neg hf]
          obtain ⟨⟨pre, t, hrec, htermt, hpre⟩, hchain⟩ :=
            ih (attempt + 1) (tickOf world attempt cur) htick htickle
          refine ⟨⟨WEvent.write (tickOf world attempt cur) :: WEvent.net Call.warmPoll :: pre, t,
            ?_, htermt, ?_⟩, ?_⟩
          · rw [heq, hrec]
            rfl
          · intro s hsm
            simp only [List.mem_cons] at hsm
            rcases hsm with h1 | h2 | h3
            · cases h1
              exact htick
            · exact WEvent.noConfusion h2
            · exact hpre s h3
          · rw [heq]
            simp only [writesOf]
            exact List.chain'_cons.mpr ⟨hcurtick, hchain⟩

/-- C4: the shared warmup status starts in `starting`; the warming write
is the very first event of `run_warmup`, before any network call; every
run ends with exactly one terminal write (`ready` or `failed`, never
both) which is its final event, so the cell is never written again after
a terminal state; and the successive cell values have monotonically
non-decreasing `elapsed_secs`, given that the wall-clock readings are
monotone. -/
theorem c4_warmup_state_machine (world : WarmupWorld)
    (hmono : ∀ i j, i ≤ j → world.elapsed i ≤ world.elapsed j) :
    startingStatus.state = "starting"
    ∧ warmingStatus.state = "warming"
    ∧ (run_warmup world).head? = some (WEvent.write warmingStatus)
    ∧ (∃ pre t, run_warmup world = pre ++ [WEvent.write t]
        ∧ isTerminal t = true
        ∧ ∀ s, WEvent.write s ∈ pre → isTerminal s = false)
    ∧ List.Chain' elapsedLE (startingStatus :: writesOf (run_warmup world)) := by
  have hwnt : isTerminal warmingStatus = false := rfl
  have hstart : elapsedLE startingStatus warmingStatus := le_refl 0
  have hmempre : ∀ s : WarmupStatus,
      WEvent.write s ∈ [WEvent.write warmingStatus, WEvent.net Call.warmSubmit] →
      isTerminal s = false := by
    intro s hsm
    simp only [List.mem_cons] at hsm
    rcases hsm with h1 | h2 | h3
    · cases h1
      exact hwnt
    · exact WEvent.noConfusion h2
    · simp at h3
  refine ⟨rfl, rfl, rfl, ?_, ?_⟩
  · cases hsub : world.submit with
    | netErr e =>
      exact ⟨[WEvent.write warmingStatus, WEvent.net Call.warmSubmit],
        { warmingStatus with state := "failed", message := "warmup request failed: " ++ e },
        by simp [run_warmup, hsub], rfl, hmempre⟩
    | parseErr e =>
      exact ⟨[WEvent.write warmingStatus, WEvent.net Call.warmSubmit],
        { warmingStatus with state := "failed", message := "warmup parse error: " ++ e },
        by simp [run_warmup, hsub], rfl, hmempre⟩
    | ok body =>
      cases hdet : (body.get "detail").bind Json.asStr with
      | some err =>
        exact ⟨[WEvent.write warmingStatus, WEvent.net Call.warmSubmit],
          { warmingStatus with state := "failed", message := "replicate error: " ++ err },
          by simp [run_warmup, hsub, hdet], rfl, hmempre⟩
      | none =>
        by_cases hst : ((body.get "status").bind Json.asStr).getD "" = "succeeded"
        · exact ⟨[WEvent.write warmingStatus, WEvent.net Call.warmSubmit],
            { state := "ready", message := "model ready", elapsed_secs := world.elapsed 0 },
            by simp [run_warmup, hsub, hdet, hst], rfl, hmempre⟩
        · cases hid : (body.get "id").bind Json.asStr with
          | some pid =>
            have heq : run_warmup world =
                WEvent.write warmingStatus :: WEvent.net Call.warmSubmit ::
                  warmup_poll world 120 1 warmingStatus := by
              simp [run_warmup, hsub, hdet, hid, hst]
            obtain ⟨⟨pre, t, hrec, htermt, hpre⟩, hchain⟩ :=
              warmup_poll_spec world hmono 120 1 warmingStatus hwnt (Nat.zero_le _)
            refine ⟨WEvent.write warmingStatus :: WEvent.net Call.warmSubmit :: pre, t,
              by rw [heq, hrec]; rfl, htermt, ?_⟩
            intro s hsm
            simp only [List.mem_cons] at hsm
            rcases hsm with h1 | h2 | h3
            · cases h1
              exact hwnt
            · exact WEvent.noConfusion h2
            · exact hpre s h3
          | none =>
            exact ⟨[WEvent.write warmingStatus, WEvent.net Call.warmSubmit],
              { warmingStatus with
                state := "failed"
                message := "no prediction id: " ++ renderJson body },
              by simp [run_warmup, hsub, hdet, hid, hst], rfl, hmempre⟩
  · cases hsub : world.submit with
    | netErr e =>
      simp only [run_warmup, hsub, writesOf]
      exact List.chain'_cons.mpr ⟨hstart,
        List.chain'_cons.mpr ⟨le_refl 0, List.chain'_singleton _⟩⟩
    | parseErr e =>
      simp only [run_warmup, hsub, writesOf]
      exact List.chain'_cons.mpr ⟨hstart,
        List.chain'_cons.mpr ⟨le_refl 0, List.chain'_singleton _⟩⟩
    | ok body =>
      cases hdet : (body.get "detail").bind Json.asStr with
      | some err =>
        simp only [run_warmup, hsub, hdet, writesOf]
        exact List.chain'_cons.mpr ⟨hstart,
          List.chain'_cons.mpr ⟨le_refl 0, List.chain'_singleton _⟩⟩
      | none =>
        by_cases hst : ((body.get "status").bind Json.asStr).getD "" = "succeeded"
        · simp only [run_warmup, hsub, hdet, hst, if_true, if_pos, writesOf]
          exact List.chain'_cons.mpr ⟨hstart,
            List.chain'_cons.mpr ⟨Nat.zero_le _, List.chain'_singleton _⟩⟩
        · cases hid : (body.get "id").bind Json.asStr with
          | some pid =>
            have heq : run_warmup world =
                WEvent.write warmingStatus :: WEvent.net Call.warmSubmit ::
                  warmup_poll world 120 1 warmingStatus := by
              simp [run_warmup, hsub, hdet, hid, hst]
            obtain ⟨⟨pre, t, hrec, htermt, hpre⟩, hchain⟩ :=
              warmup_poll_spec world hmono 120 1 warmingStatus hwnt (Nat.zero_le _)
            rw [heq]
            simp only [writesOf]
            exact List.chain'_cons.mpr ⟨hstart, hchain⟩
          | none =>
            simp only [run_warmup, hsub, hdet, hid, hst, writesOf]
            exact List.chain'_cons.mpr ⟨hstart,
              List.chain'_cons.mpr ⟨le_refl 0, List.chain'_singleton _⟩⟩

/-- Witness for C4 on the concrete two-poll warmup world `c4World` with
the identity elapsed-seconds readings. -/
theorem c4_witness :
    (∀ i j : ℕ, i ≤ j → c4World.elapsed i ≤ c4World.elapsed j)
    ∧ (startingStatus.state = "starting"
        ∧ warmingStatus.state = "warming"
        ∧ (run_warmup c4World).head? = some (WEvent.write warmingStatus)
        ∧ (∃ pre t, run_warmup c4World = pre ++ [WEvent.write t]
            ∧ isTerminal t = true
            ∧ ∀ s, WEvent.write s ∈ pre → isTerminal s = false)
        ∧ List.Chain' elapsedLE (startingStatus :: writesOf (run_warmup c4World))) :=
  ⟨fun _ _ h => h, c4_warmup_state_machine c4World fun _ _ h => h⟩

/-- C9: a well-formed reasoning response whose `choices` list is empty
makes `analyze_pattern` fail with "DeepSeek returned no choices"; no
result is produced. -/
theorem c9_no_choices (resp : DeepSeekResponse) (h : resp.choices = []) :
    analyze_pattern (ReasonOutcome.ok resp) =
      (Except.error "DeepSeek returned no choices", [Call.reason]) := by
  simp [analyze_pattern, analyzePatternResp, h]

/-- Witness for C9 at a concrete choiceless response. -/
theorem c9_witness :
    analyze_pattern (ReasonOutcome.ok { choices := [], usage := none }) =
      (Except.error "DeepSeek returned no choices", [Call.reason]) :=
  c9_no_choices { choices := [], usage := none } rfl

/-- Helper: `as_str`-filtering an all-string array recovers exactly the
fragments. -/
theorem filterMap_asStr_map_str (ss : List String) :
    List.filterMap (Json.asStr ∘ Json.str) ss = ss := by
  induction ss with
  | nil => rfl
  | cons a l ih => simp [Json.asStr, List.filterMap_cons, Function.comp, ih]

/-- C7 (amended): a bare string output passes through unchanged (even the
empty string, which yields a success with empty description); an array of
string fragments concatenates in order, and yields the empty-output error
exactly when the concatenation is empty (in particular for the empty
array); any other value is stringified; `predict_seconds` defaults to 0
when metrics are absent, which is not an error. -/
theorem c7_output_normalization :
    (∀ (r : ReplicateResponse) (s : String), r.output = some (Json.str s) →
        extract_result r = Except.ok { description := s, predict_seconds := predictSecondsOf r })
    ∧ (∀ (r : ReplicateResponse) (ss : List String),
        r.output = some (Json.arr (ss.map Json.str)) → String.join ss ≠ "" →
        extract_result r =
          Except.ok { description := String.join ss, predict_seconds := predictSecondsOf r })
    ∧ (∀ (r : ReplicateResponse) (ss : List String),
        r.output = some (Json.arr (ss.map Json.str)) → String.join ss = "" →
        extract_result r = Except.error "Replicate returned empty output array")
    ∧ (∀ r : ReplicateResponse, r.output = some (Json.arr []) →
        extract_result r = Except.error "Replicate returned empty output array")
    ∧ (∀ (r : ReplicateResponse) (j : Json), r.output = some j →
        (∀ s, j ≠ Json.str s) → (∀ xs, j ≠ Json.arr xs) →
        extract_result r =
          Except.ok { description := renderJson j, predict_seconds := predictSecondsOf r })
    ∧ (∀ r : ReplicateResponse, r.metrics = none → predictSecondsOf r = 0)
    ∧ extract_result c7ArrResp
        = Except.ok { description := "abc", predict_seconds := 0 } := by
  refine ⟨?_, ?_, ?_, ?_, ?_, ?_, rfl⟩
  · intro r s h
    simp [extract_result, h]
  · intro r ss h hne
    simp [extract_result, h, filterMap_asStr_map_str, hne]
  · intro r ss h he
    simp [extract_result, h, filterMap_asStr_map_str, he]
  · intro r h
    simp [extract_result, h, String.join]
  · intro r j h hs ha
    cases j with
    | str s => exact absurd rfl (hs s)
    | arr xs => exact absurd rfl (ha xs)
    | null => simp [extract_result, h]
    | bool b => simp [extract_result, h]
    | num q => simp [extract_result, h]
    | obj fs => simp [extract_result, h]
  · intro r h
    simp [predictSecondsOf, h]

/-- Witness for C7: a bare-string output with 7 reported predict seconds
passes through. -/
theorem c7_witness :
    extract_result c7StrResp
      = Except.ok { description := "three green candles", predict_seconds := 7 } :=
  c7_output_normalization.1 c7StrResp "three green candles" rfl

/-- Counterexample for C7 as stated: a bare empty-string output yields a
success with empty description, not the claimed "empty output" error. -/
theorem c7_counterexample :
    extract_result c7EmptyStrResp
      = Except.ok { description := "", predict_seconds := 0 } := rfl

/-- C8: the reasoning answer `"```json\n…\n```"` is NOT unfenced by the
code: stripping `"```json"` succeeds but the following `strip_prefix("```")`
fails and its `unwrap_or` restores the original trimmed content, so only
the trailing fence is removed, the language-tagged fence survives, the
content no longer parses as JSON (while the inner object alone would), and
`analyze_pattern` fails fatally; an untagged fence is stripped as
intended. -/
theorem c8_json_fence_not_stripped :
    stripFences fencedContent = "```json\n\x7b\"pattern\": \"Hammer\"\x7d"
    ∧ Json.parse (stripFences fencedContent) = none
    ∧ (Json.parse "\x7b\"pattern\": \"Hammer\"\x7d").isSome = true
    ∧ stripFences "```\n\x7b\"pattern\": \"Hammer\"\x7d\n```" = "\x7b\"pattern\": \"Hammer\"\x7d"
    ∧ analyzePatternResp c8Resp
        = Except.error ("Failed to parse pattern JSON from DeepSeek — content: " ++ fencedContent) :=
  ⟨rfl, rfl, rfl, rfl, rfl⟩

/-- Helper: dropping the non-string elements of an array before
`as_str`-filtering does not change the filtered result. -/
theorem filterMap_asStr_filter (xs : List Json) :
    (xs.filter fun x => (Json.asStr x).isSome).filterMap Json.asStr = xs.filterMap Json.asStr := by
  induction xs with
  | nil => rfl
  | cons a l ih =>
    cases a <;> simpa [Json.asStr, List.filter_cons, List.filterMap_cons] using ih

/-- C10: on an array output, `extract_result` keeps only the JSON-string
elements (deleting the non-string elements changes nothing), and an array
with no string element yields the "empty output array" error. -/
theorem c10_non_string_elements_discarded (r : ReplicateResponse) (xs : List Json)
    (h : r.output = some (Json.arr xs)) :
    extract_result r =
      extract_result { r with output := some (Json.arr (xs.filter fun x => (Json.asStr x).isSome)) }
    ∧ ((∀ x ∈ xs, Json.asStr x = none) →
        extract_result r = Except.error "Replicate returned empty output array") := by
  constructor
  · simp [extract_result, h, filterMap_asStr_filter, predictSecondsOf]
  · intro hall
    have hnil : xs.filterMap Json.asStr = [] := List.filterMap_eq_nil_iff.mpr hall
    simp [extract_result, h, hnil, String.join]

/-- Witness for C10 on a concrete mixed array (strings "a", "b" among a
number and a null) and a concrete all-non-string array. -/
theorem c10_witness :
    (extract_result c10Resp =
      extract_result { c10Resp with
        output := some (Json.arr ([Json.num 1, Json.str "a", Json.null, Json.str "b"].filter
          fun x => (Json.asStr x).isSome)) })
    ∧ extract_result c10Resp = Except.ok { description := "ab", predict_seconds := 0 }
    ∧ extract_result c10NonStrResp = Except.error "Replicate returned empty output array" :=
  ⟨(c10_non_string_elements_discarded c10Resp
      [Json.num 1, Json.str "a", Json.null, Json.str "b"] rfl).1,
   rfl,
   (c10_non_string_elements_discarded c10NonStrResp [Json.num 1, Json.bool true] rfl).2
     (by decide)⟩

end DeepseekTest
